import Mathlib

/-
Verification development for the DATA-MINER local runner.

Shallow embedding of the Go scheduler/runner in
src/src/local_runner/go_runner_integration.go (configuration, job catalog,
addJob/Start, executeJob, saveJobResult) and of the PowerShell job executor
Invoke-DataMinerJob in src/scripts/local_ci_runner.ps1.

External effects (the clock, the spawned child process, the cron library's
expression parser, the filesystem, resolution of executables on PATH) are
passed in as explicit parameters, so every definition is executable and the
control flow of the source is reproduced faithfully.
-/

/-- GoRunnerConfig mirrors the Go struct of the same name
(go_runner_integration.go lines 21-29). -/
structure GoRunnerConfig where
  runnerID : String
  workspacePath : String
  logPath : String
  schedule : String
  gitHubToken : String
  ecosystemRepos : List String
  parallelJobs : Int
deriving DecidableEq

/-- Job mirrors the Go struct Job (lines 32-41). Timeout is a time.Duration
in nanoseconds; CreatedAt is a time value, 0 when never set (the catalog in
addDataMinerJobs never sets it). -/
structure Job where
  id : String
  name : String
  command : String
  args : List String
  schedule : String
  timeout : Int
  createdAt : Int
  status : String
deriving DecidableEq

/-- Behaviour of the spawned child process as observed by executeJob: it
exits with a code before the context deadline; or it is still running when
the deadline of context.WithTimeout expires (exec.CommandContext then kills
it); or it fails to start at all (binary not found, permission denied). -/
inductive ProcResult where
  | exited (code : Int) (output : String)
  | timedOut (output : String)
  | launchFailed (reason : String)
deriving DecidableEq

/-- Result (err, output) of cmd.CombinedOutput() at line 175: err is nil
exactly when the process started and exited 0. A nonzero exit yields the Go
ExitError message, a context-deadline kill yields the wait error of the
killed process, and a start failure yields the launch error itself (with no
output). -/
def combinedOutput : ProcResult → Option String × String
  | .exited code output =>
      (if code = 0 then none else some ("exit status " ++ toString code), output)
  | .timedOut output => (some "signal: killed", output)
  | .launchFailed reason => (some reason, "")

/-- The JSON object built by saveJobResult (lines 193-204), field for
field. -/
structure JobResult where
  job_id : String
  job_name : String
  executed_at : String
  duration_ms : Int
  status : String
  output : String
  error : Option String
deriving DecidableEq

/-- Association-list lookup, modelling a read of a Go map or of a file in
the log directory. -/
def mapLookup {α : Type} (m : List (String × α)) (k : String) : Option α :=
  match m with
  | [] => none
  | (k1, v) :: rest => if k1 = k then some v else mapLookup rest k

/-- Association-list update, modelling a Go map assignment or an
os.WriteFile, both of which silently overwrite an existing entry at the
same key/path. -/
def mapInsert {α : Type} (m : List (String × α)) (k : String) (v : α) :
    List (String × α) :=
  match m with
  | [] => [(k, v)]
  | (k1, v1) :: rest =>
      if k1 = k then (k, v) :: rest else (k1, v1) :: mapInsert rest k v

/-- Path of the timestamped result file (line 209); the timestamp argument
is time.Now() formatted with second granularity (layout 20060102_150405). -/
def resultFileName (logPath jobID timestamp : String) : String :=
  logPath ++ "/job_" ++ jobID ++ "_" ++ timestamp ++ ".json"

/-- Everything saveJobResult produces: the record it built, the file path it
targeted, the log directory after the write, plus what it sent to standard
error and what error it returned to its caller (the Go function logs
nothing and returns nothing, so the last two are empty on every path). -/
structure SaveEffects where
  record : JobResult
  file : String
  fs : List (String × JobResult)
  stderrLogs : List String
  schedulerErr : Option String
deriving DecidableEq

/-- saveJobResult (lines 192-213). fs is the log directory as a map from
path to record; writeOk says whether os.WriteFile succeeds. The Go code
discards the json.MarshalIndent error (data, _ :=) and the os.WriteFile
error (return value unused), logs nothing anywhere, and returns nothing. -/
def LocalRunner.saveJobResult (cfg : GoRunnerConfig) (job : Job)
    (output : String) (durationMs : Int) (err : Option String)
    (executedAt timestamp : String) (fs : List (String × JobResult))
    (writeOk : Bool) : SaveEffects :=
  let result : JobResult :=
    { job_id := job.id, job_name := job.name, executed_at := executedAt,
      duration_ms := durationMs, status := job.status, output := output,
      error := err }
  let file := resultFileName cfg.logPath job.id timestamp
  { record := result, file := file,
    fs := if writeOk then mapInsert fs file result else fs,
    stderrLogs := [], schedulerErr := none }

/-- cmd.Env as built at lines 168-172: os.Environ() with three variables
appended by fmt.Sprintf. -/
def childEnv (hostEnv : List String) (cfg : GoRunnerConfig) : List String :=
  hostEnv ++
    ["GITHUB_TOKEN=" ++ cfg.gitHubToken,
     "DATA_MINER_RUNNER_ID=" ++ cfg.runnerID,
     "DATA_MINER_WORKSPACE=" ++ cfg.workspacePath]

/-- Observable effects of one executeJob call: the environment and working
directory given to the child, the job value after the run (executeJob
mutates job.Status through the shared pointer), and the effects of the
result save. -/
structure ExecEffects where
  env : List String
  dir : String
  job : Job
  save : SaveEffects
deriving DecidableEq

/-- executeJob (lines 155-189): prepares the command with the workspace
directory and the augmented environment, runs it under the timeout context,
sets job.Status to "failed" when CombinedOutput returned an error and to
"completed" otherwise, then calls saveJobResult. durationMs, executedAt and
timestamp are the clock readings, pr the child-process behaviour, fs and
writeOk the state and outcome of the record write. -/
def LocalRunner.executeJob (cfg : GoRunnerConfig) (hostEnv : List String)
    (job : Job) (pr : ProcResult) (durationMs : Int)
    (executedAt timestamp : String) (fs : List (String × JobResult))
    (writeOk : Bool) : ExecEffects :=
  let out := combinedOutput pr
  let job2 := { job with status := if out.1.isSome then "failed" else "completed" }
  { env := childEnv hostEnv cfg,
    dir := cfg.workspacePath,
    job := job2,
    save := LocalRunner.saveJobResult cfg job2 out.2 durationMs out.1
      executedAt timestamp fs writeOk }

/-- LocalRunner (lines 44-49). The robfig cron engine is modelled by its
list of registered entries (schedule expression, job id) together with its
running flag; jobs is the catalog map. The logger's file handle is not
modelled. -/
structure LocalRunner where
  config : GoRunnerConfig
  cronEntries : List (String × String)
  cronRunning : Bool
  jobs : List (String × Job)
deriving DecidableEq

/-- addJob (lines 143-152): an unconditional map assignment (a duplicate id
silently overwrites the previous job), then cron.AddFunc when the schedule
is nonempty. AddFunc's error return is ignored by the Go code: when the
cron parser (modelled by the oracle cronOk) rejects the expression, the
entry is simply not registered and nothing fails. -/
def LocalRunner.addJob (cronOk : String → Bool) (r : LocalRunner)
    (job : Job) : LocalRunner :=
  let r1 := { r with jobs := mapInsert r.jobs job.id job }
  if job.schedule ≠ "" then
    if cronOk job.schedule then
      { r1 with cronEntries := r1.cronEntries ++ [(job.schedule, job.id)] }
    else r1
  else r1

/-- Job 1 of addDataMinerJobs (lines 94-102). -/
def ecosystemJob : Job :=
  { id := "ecosystem-mining-weekly", name := "Mining ECOSYSTEM-1 hebdomadaire",
    command := "python3",
    args := ["scripts/ecosystem_mining.py", "--comprehensive"],
    schedule := "0 2 * * 1", timeout := 1800000000000, createdAt := 0,
    status := "active" }

/-- Job 2 of addDataMinerJobs (lines 106-114). -/
def governanceJob : Job :=
  { id := "governance-report-daily", name := "Rapport governance quotidien",
    command := "python3",
    args := ["src/governance/ci_gatekeeper.py", "--report"],
    schedule := "0 8 * * *", timeout := 600000000000, createdAt := 0,
    status := "active" }

/-- Job 3 of addDataMinerJobs (lines 118-126). -/
def cleanupJob : Job :=
  { id := "cleanup-old-artifacts", name := "Nettoyage artefacts > 30 jours",
    command := "powershell",
    args := ["-File", "scripts/cleanup-artifacts.ps1", "-Days", "30"],
    schedule := "0 1 1 * *", timeout := 900000000000, createdAt := 0,
    status := "active" }

/-- Job 4 of addDataMinerJobs (lines 130-138). -/
def syncJob : Job :=
  { id := "sync-devtools-hub", name := "Sync avec DevTools Hub",
    command := "make", args := ["sync-devtools"],
    schedule := "*/30 * * * *", timeout := 300000000000, createdAt := 0,
    status := "active" }

/-- The fixed catalog registered by addDataMinerJobs, in declaration
order. -/
def dataMinerJobs : List Job := [ecosystemJob, governanceJob, cleanupJob, syncJob]

/-- addDataMinerJobs (lines 92-140): adds the four standard jobs through
addJob. -/
def LocalRunner.addDataMinerJobs (cronOk : String → Bool)
    (r : LocalRunner) : LocalRunner :=
  dataMinerJobs.foldl (LocalRunner.addJob cronOk) r

/-- The cron entries one call of addDataMinerJobs registers when the cron
parser accepts all four schedule expressions. -/
def dataMinerCronEntries : List (String × String) :=
  [("0 2 * * 1", "ecosystem-mining-weekly"),
   ("0 8 * * *", "governance-report-daily"),
   ("0 1 1 * *", "cleanup-old-artifacts"),
   ("*/30 * * * *", "sync-devtools-hub")]

/-- Start (lines 78-89): registers the standard jobs via addDataMinerJobs,
starts the cron engine (robfig cron's Start is a no-op when the engine is
already running, which the running flag captures), and always returns nil. -/
def LocalRunner.Start (cronOk : String → Bool) (r : LocalRunner) :
    LocalRunner × Option String :=
  let r1 := LocalRunner.addDataMinerJobs cronOk r
  ({ r1 with cronRunning := true }, none)

/-- One entry of the DataMinerJobs hashtable in local_ci_runner.ps1
(lines 69-110); timeout in seconds. -/
structure PSJob where
  name : String
  command : String
  args : List String
  timeout : Int
  schedule : String
  dependencies : List String
deriving DecidableEq

/-- Behaviour of Start-Process for the job's command: either the process
runs to an exit code, or Start-Process throws (binary not found, permission
denied; the script sets ErrorActionPreference to Stop). -/
inductive PSLaunch where
  | exited (code : Int)
  | launchThrow (msg : String)
deriving DecidableEq

/-- The hashtable returned by Invoke-DataMinerJob; fields absent on a given
path are none. -/
structure PSResult where
  status : String
  exit_code : Option Int
  error : Option String
  duration : Int
deriving DecidableEq

/-- Invoke-DataMinerJob (local_ci_runner.ps1 lines 113-148). resolvable
models Get-Command succeeding on a dependency name; durationS the measured
seconds; the returned Bool records whether a child process was actually
created. The loop throws on the first missing dependency, before
Start-Process is reached; the catch block turns any throw into a result
with status "error". On an exit code of 0 the result is "success",
otherwise "failed" carrying the exit code. -/
def invokeDataMinerJob (resolvable : String → Bool) (launch : PSLaunch)
    (durationS : Int) (job : PSJob) : PSResult × Bool :=
  match job.dependencies.find? (fun d => ! resolvable d) with
  | some d =>
      ({ status := "error", exit_code := none,
         error := some ("Dépendance manquante: " ++ d),
         duration := durationS }, false)
  | none =>
      match launch with
      | .launchThrow msg =>
          ({ status := "error", exit_code := none, error := some msg,
             duration := durationS }, false)
      | .exited code =>
          if code = 0 then
            ({ status := "success", exit_code := none, error := none,
               duration := durationS }, true)
          else
            ({ status := "failed", exit_code := some code, error := none,
               duration := durationS }, true)

/-- Concrete configuration used by the concrete-input theorems. -/
def cfg0 : GoRunnerConfig :=
  { runnerID := "data-miner-local", workspacePath := "/ws",
    logPath := "/logs", schedule := "", gitHubToken := "tok0",
    ecosystemRepos := [], parallelJobs := 2 }

/-- A fresh runner over cfg0, as NewLocalRunner builds it (empty cron,
empty job map, cron not running). -/
def runner0 : LocalRunner :=
  { config := cfg0, cronEntries := [], cronRunning := false, jobs := [] }

/-- A concrete job used by the concrete-input theorems. -/
def jobA : Job :=
  { id := "job-a", name := "Job A", command := "python3",
    args := ["a.py"], schedule := "0 2 * * 1", timeout := 60000000000,
    createdAt := 0, status := "active" }

/-- First of two concrete jobs sharing the id "x". -/
def jobX1 : Job :=
  { id := "x", name := "first", command := "python3", args := [],
    schedule := "0 2 * * 1", timeout := 60000000000, createdAt := 0,
    status := "active" }

/-- Second job with id "x"; its timeout is nonpositive on purpose. -/
def jobX2 : Job :=
  { id := "x", name := "second", command := "make", args := ["a"],
    schedule := "0 3 * * 1", timeout := -5, createdAt := 0,
    status := "active" }

/-- The ecosystem-mining entry of the PowerShell catalog (lines 70-77),
which declares dependencies python and pip. -/
def psJobMining : PSJob :=
  { name := "Mining complet ECOSYSTEM-1", command := "python",
    args := ["-u", "scripts/ecosystem_mining.py", "--comprehensive"],
    timeout := 1800, schedule := "daily", dependencies := ["python", "pip"] }

/-- Looking up the key just inserted returns the inserted value. -/
theorem mapLookup_mapInsert_self {α : Type} (m : List (String × α))
    (k : String) (v : α) : mapLookup (mapInsert m k v) k = some v := by
  induction m with
  | nil => simp [mapInsert, mapLookup]
  | cons p rest ih =>
      obtain ⟨k1, v1⟩ := p
      by_cases h : k1 = k
      · simp [mapInsert, h, mapLookup]
      · simp [mapInsert, h, mapLookup, ih]

/-- Inserting at one key leaves lookups of other keys unchanged. -/
theorem mapLookup_mapInsert_ne {α : Type} (m : List (String × α))
    (k k1 : String) (v : α) (h : k1 ≠ k) :
    mapLookup (mapInsert m k1 v) k = mapLookup m k := by
  induction m with
  | nil => simp [mapInsert, mapLookup, h]
  | cons p rest ih =>
      obtain ⟨k2, v2⟩ := p
      by_cases h2 : k2 = k1
      · subst h2
        simp [mapInsert, mapLookup, h]
      · by_cases h3 : k2 = k
        · subst h3
          simp [mapInsert, mapLookup, h2]
        · simp [mapInsert, mapLookup, h2, h3, ih]

/-- Re-inserting the value a key already maps to changes nothing. -/
theorem mapInsert_eq_of_lookup {α : Type} (m : List (String × α))
    (k : String) (v : α) (h : mapLookup m k = some v) :
    mapInsert m k v = m := by
  induction m with
  | nil => simp [mapLookup] at h
  | cons p rest ih =>
      obtain ⟨k1, v1⟩ := p
      by_cases h1 : k1 = k
      · subst h1
        simp [mapLookup] at h
        simp [mapInsert, h]
      · simp [mapLookup, h1] at h
        simp [mapInsert, h1, ih h]

/-- Two successive inserts at the same key: the later one wins and the
earlier value is gone. -/
theorem mapInsert_mapInsert_same {α : Type} (m : List (String × α))
    (k : String) (v1 v2 : α) :
    mapInsert (mapInsert m k v1) k v2 = mapInsert m k v2 := by
  induction m with
  | nil => simp [mapInsert]
  | cons p rest ih =>
      obtain ⟨k1, w⟩ := p
      by_cases h : k1 = k
      · simp [mapInsert, h]
      · simp [mapInsert, h, ih]

/-- addJob updates the jobs map by plain insertion at the job's id,
whatever the cron oracle says. -/
theorem addJob_jobs (cronOk : String → Bool) (r : LocalRunner) (job : Job) :
    (LocalRunner.addJob cronOk r job).jobs = mapInsert r.jobs job.id job := by
  by_cases h1 : job.schedule = ""
  · simp [LocalRunner.addJob, h1]
  · by_cases h2 : cronOk job.schedule <;> simp [LocalRunner.addJob, h1, h2]

/-- addJob appends one cron entry when the schedule is nonempty and the
cron parser accepts it, and none otherwise. -/
theorem addJob_cronEntries (cronOk : String → Bool) (r : LocalRunner)
    (job : Job) :
    (LocalRunner.addJob cronOk r job).cronEntries =
      r.cronEntries ++
        (if job.schedule ≠ "" ∧ cronOk job.schedule = true
          then [(job.schedule, job.id)] else []) := by
  by_cases h1 : job.schedule = ""
  · simp [LocalRunner.addJob, h1]
  · by_cases h2 : cronOk job.schedule <;>
      simp [LocalRunner.addJob, h1, h2]

/-- The jobs map after addDataMinerJobs: the four standard jobs inserted in
declaration order. -/
theorem addDataMinerJobs_jobs (cronOk : String → Bool) (r : LocalRunner) :
    (LocalRunner.addDataMinerJobs cronOk r).jobs =
      mapInsert (mapInsert (mapInsert (mapInsert r.jobs
        ecosystemJob.id ecosystemJob) governanceJob.id governanceJob)
        cleanupJob.id cleanupJob) syncJob.id syncJob := by
  simp [LocalRunner.addDataMinerJobs, dataMinerJobs, List.foldl, addJob_jobs]

/-- When the cron parser accepts the four standard schedules, each call of
addDataMinerJobs appends exactly the four standard entries. -/
theorem addDataMinerJobs_cronEntries (cronOk : String → Bool)
    (r : LocalRunner) (h1 : cronOk "0 2 * * 1" = true)
    (h2 : cronOk "0 8 * * *" = true) (h3 : cronOk "0 1 1 * *" = true)
    (h4 : cronOk "*/30 * * * *" = true) :
    (LocalRunner.addDataMinerJobs cronOk r).cronEntries =
      r.cronEntries ++ dataMinerCronEntries := by
  simp [LocalRunner.addDataMinerJobs, dataMinerJobs, List.foldl,
    addJob_cronEntries, ecosystemJob, governanceJob, cleanupJob, syncJob,
    h1, h2, h3, h4, dataMinerCronEntries]

/-- The result-file path determines the timestamp when log path and job id
are fixed. -/
theorem resultFileName_inj (lp jid : String) {ts1 ts2 : String}
    (h : resultFileName lp jid ts1 = resultFileName lp jid ts2) :
    ts1 = ts2 := by
  have hd := congrArg String.data h
  simp only [resultFileName, String.data_append] at hd
  simp [List.append_assoc] at hd
  cases ts1
  cases ts2
  simp_all

/-- Claim C1 (counterexample). The claim says a job whose process has not
exited by the timeout deadline is recorded as TimedOut, never as a plain
Failure. In the code a timed-out run is recorded with the very same plain
status "failed" that an ordinary nonzero exit produces, so no distinct
TimedOut outcome exists: at this concrete input the timed-out run and the
exit-code-3 run yield identical recorded statuses. -/
theorem C1_counterexample :
    (LocalRunner.executeJob cfg0 [] jobA (ProcResult.timedOut "") 2000
      "2025-01-06T12:00:02Z" "20250106_120002" [] true).save.record.status =
      (LocalRunner.executeJob cfg0 [] jobA (ProcResult.exited 3 "") 2000
        "2025-01-06T12:00:02Z" "20250106_120002" [] true).save.record.status ∧
    (LocalRunner.executeJob cfg0 [] jobA (ProcResult.timedOut "") 2000
      "2025-01-06T12:00:02Z" "20250106_120002" [] true).save.record.status =
      "failed" := by
  exact ⟨rfl, rfl⟩

/-- Claim C1 (amended). For every job whose child process has not exited by
the timeout deadline, the recorded outcome is the status "failed" with
error "signal: killed" — never "completed" (the code's Success status) —
but the code does not distinguish a timeout from an ordinary failure: the
recorded status is the same plain "failed". -/
theorem C1_amended (cfg : GoRunnerConfig) (hostEnv : List String) (job : Job)
    (out executedAt timestamp : String) (durationMs : Int)
    (fs : List (String × JobResult)) (writeOk : Bool) :
    (LocalRunner.executeJob cfg hostEnv job (ProcResult.timedOut out)
      durationMs executedAt timestamp fs writeOk).job.status = "failed" ∧
    (LocalRunner.executeJob cfg hostEnv job (ProcResult.timedOut out)
      durationMs executedAt timestamp fs writeOk).save.record.status = "failed" ∧
    (LocalRunner.executeJob cfg hostEnv job (ProcResult.timedOut out)
      durationMs executedAt timestamp fs writeOk).save.record.error =
      some "signal: killed" ∧
    (LocalRunner.executeJob cfg hostEnv job (ProcResult.timedOut out)
      durationMs executedAt timestamp fs writeOk).job.status ≠ "completed" := by
  exact ⟨rfl, rfl, rfl, (by decide : ("failed" : String) ≠ "completed")⟩

/-- Claim C2 (counterexample). The claim says a process failing to start
yields LaunchError, an outcome distinct from Failure. In the Go runner both
a launch failure and a nonzero exit are recorded with the identical status
"failed"; only the free-text error message differs, so no distinct
LaunchError outcome exists. -/
theorem C2_counterexample :
    (LocalRunner.executeJob cfg0 [] jobA
      (ProcResult.launchFailed "executable file not found in PATH") 5
      "2025-01-06T12:00:00Z" "20250106_120000" [] true).save.record.status =
      "failed" ∧
    (LocalRunner.executeJob cfg0 [] jobA (ProcResult.exited 3 "") 5
      "2025-01-06T12:00:00Z" "20250106_120000" [] true).save.record.status =
      "failed" := by
  exact ⟨rfl, rfl⟩

/-- Claim C2 (amended). In the Go runner an exit code of 0 is recorded as
"completed"; a nonzero exit code n is recorded as "failed" with the
ExitError message "exit status n" in the record's error field; a process
that fails to start is recorded with the same status "failed", carrying
only the launch reason in the error field — launch errors are not a
distinct outcome there. In the PowerShell runner the trichotomy does hold:
exit 0 gives "success", a nonzero exit m gives "failed" carrying exit
code m, and a launch throw gives status "error", distinct from "failed". -/
theorem C2_amended (cfg : GoRunnerConfig) (hostEnv : List String) (job : Job)
    (out reason executedAt timestamp : String) (durationMs : Int)
    (fs : List (String × JobResult)) (writeOk : Bool) (n : Int) (hn : n ≠ 0)
    (resolv : String → Bool) (psjob : PSJob) (durS : Int) (m : Int)
    (hm : m ≠ 0) (msg : String)
    (hdeps : psjob.dependencies.find? (fun d => ! resolv d) = none) :
    (LocalRunner.executeJob cfg hostEnv job (ProcResult.exited 0 out)
      durationMs executedAt timestamp fs writeOk).save.record.status =
      "completed" ∧
    (LocalRunner.executeJob cfg hostEnv job (ProcResult.exited n out)
      durationMs executedAt timestamp fs writeOk).save.record.status =
      "failed" ∧
    (LocalRunner.executeJob cfg hostEnv job (ProcResult.exited n out)
      durationMs executedAt timestamp fs writeOk).save.record.error =
      some ("exit status " ++ toString n) ∧
    (LocalRunner.executeJob cfg hostEnv job (ProcResult.launchFailed reason)
      durationMs executedAt timestamp fs writeOk).save.record.status =
      "failed" ∧
    (LocalRunner.executeJob cfg hostEnv job (ProcResult.launchFailed reason)
      durationMs executedAt timestamp fs writeOk).save.record.error =
      some reason ∧
    (invokeDataMinerJob resolv (PSLaunch.exited 0) durS psjob).1.status =
      "success" ∧
    (invokeDataMinerJob resolv (PSLaunch.exited m) durS psjob).1.status =
      "failed" ∧
    (invokeDataMinerJob resolv (PSLaunch.exited m) durS psjob).1.exit_code =
      some m ∧
    (invokeDataMinerJob resolv (PSLaunch.launchThrow msg) durS psjob).1.status =
      "error" ∧
    (invokeDataMinerJob resolv (PSLaunch.launchThrow msg) durS psjob).1.status ≠
      (invokeDataMinerJob resolv (PSLaunch.exited m) durS psjob).1.status := by
  refine ⟨?_, ?_, ?_, rfl, rfl, ?_, ?_, ?_, ?_, ?_⟩ <;>
    simp [LocalRunner.executeJob, LocalRunner.saveJobResult, combinedOutput,
      invokeDataMinerJob, hdeps, hn, hm]

/-- Claim C2 (witness for the amended theorem): the amended statement at
the concrete inputs n = m = 3, a host where every dependency resolves, and
the ecosystem-mining PowerShell job. -/
theorem C2_witness :
    (LocalRunner.executeJob cfg0 [] jobA (ProcResult.exited 0 "") 5
      "ea" "ts" [] true).save.record.status = "completed" ∧
    (LocalRunner.executeJob cfg0 [] jobA (ProcResult.exited 3 "") 5
      "ea" "ts" [] true).save.record.status = "failed" ∧
    (LocalRunner.executeJob cfg0 [] jobA (ProcResult.exited 3 "") 5
      "ea" "ts" [] true).save.record.error = some ("exit status " ++ toString (3 : Int)) ∧
    (LocalRunner.executeJob cfg0 [] jobA (ProcResult.launchFailed "no exec") 5
      "ea" "ts" [] true).save.record.status = "failed" ∧
    (LocalRunner.executeJob cfg0 [] jobA (ProcResult.launchFailed "no exec") 5
      "ea" "ts" [] true).save.record.error = some "no exec" ∧
    (invokeDataMinerJob (fun _ => true) (PSLaunch.exited 0) 1 psJobMining).1.status =
      "success" ∧
    (invokeDataMinerJob (fun _ => true) (PSLaunch.exited 3) 1 psJobMining).1.status =
      "failed" ∧
    (invokeDataMinerJob (fun _ => true) (PSLaunch.exited 3) 1 psJobMining).1.exit_code =
      some 3 ∧
    (invokeDataMinerJob (fun _ => true) (PSLaunch.launchThrow "denied") 1 psJobMining).1.status =
      "error" ∧
    (invokeDataMinerJob (fun _ => true) (PSLaunch.launchThrow "denied") 1 psJobMining).1.status ≠
      (invokeDataMinerJob (fun _ => true) (PSLaunch.exited 3) 1 psJobMining).1.status := by
  exact C2_amended cfg0 [] jobA "" "no exec" "ea" "ts" 5 [] true 3 (by decide)
    (fun _ => true) psJobMining 1 3 (by decide) "denied" (by decide)

/-- Claim C3 (counterexample). The claim says a catalog in which two job
definitions share an id (or a schedule fails to parse, or a timeout is
nonpositive) is rejected with a ConfigurationError before start() can
succeed. Here the concrete jobs jobX1 and jobX2 share the id "x" and jobX2
has a negative timeout, yet Start returns no error, the cron engine is
running, and the map silently holds only the second definition. -/
theorem C3_counterexample :
    (LocalRunner.Start (fun _ => true)
      (LocalRunner.addJob (fun _ => true)
        (LocalRunner.addJob (fun _ => true) runner0 jobX1) jobX2)).2 = none ∧
    (LocalRunner.Start (fun _ => true)
      (LocalRunner.addJob (fun _ => true)
        (LocalRunner.addJob (fun _ => true) runner0 jobX1) jobX2)).1.cronRunning =
      true ∧
    mapLookup (LocalRunner.Start (fun _ => true)
      (LocalRunner.addJob (fun _ => true)
        (LocalRunner.addJob (fun _ => true) runner0 jobX1) jobX2)).1.jobs "x" =
      some jobX2 ∧
    jobX1.id = jobX2.id ∧ jobX2.timeout < 0 := by
  exact ⟨rfl, rfl, by decide, rfl, by decide⟩

/-- Claim C3 (amended). The runner performs no catalog validation at all:
adding a second job with an already-used id silently overwrites the first
and raises no error; a schedule the cron parser rejects leaves the job in
the catalog with no trigger and raises no error (AddFunc's error is
discarded); the timeout field is never checked; and Start always returns
nil and leaves the cron engine running, so any catalog is accepted into a
running scheduler. -/
theorem C3_amended (cronOk : String → Bool) (r : LocalRunner) (j1 j2 j3 : Job)
    (hid : j1.id = j2.id) (hbad : cronOk j3.schedule = false) :
    (LocalRunner.addJob cronOk (LocalRunner.addJob cronOk r j1) j2).jobs =
      mapInsert r.jobs j2.id j2 ∧
    (∀ r3 : LocalRunner, (LocalRunner.Start cronOk r3).2 = none ∧
      (LocalRunner.Start cronOk r3).1.cronRunning = true) ∧
    (LocalRunner.addJob cronOk r j3).cronEntries = r.cronEntries ∧
    mapLookup (LocalRunner.addJob cronOk r j3).jobs j3.id = some j3 := by
  refine ⟨?_, ?_, ?_, ?_⟩
  · rw [addJob_jobs, addJob_jobs, hid, mapInsert_mapInsert_same]
  · intro r3
    exact ⟨rfl, rfl⟩
  · rw [addJob_cronEntries]
    simp [hbad]
  · rw [addJob_jobs]
    exact mapLookup_mapInsert_self r.jobs j3.id j3

/-- Claim C3 (witness for the amended theorem): the amended statement at
the concrete runner runner0, the duplicate-id jobs jobX1 and jobX2, and a
cron parser that rejects every expression. -/
theorem C3_witness :
    (LocalRunner.addJob (fun _ => false)
      (LocalRunner.addJob (fun _ => false) runner0 jobX1) jobX2).jobs =
      mapInsert runner0.jobs jobX2.id jobX2 ∧
    (∀ r3 : LocalRunner, (LocalRunner.Start (fun _ => false) r3).2 = none ∧
      (LocalRunner.Start (fun _ => false) r3).1.cronRunning = true) ∧
    (LocalRunner.addJob (fun _ => false) runner0 jobX2).cronEntries =
      runner0.cronEntries ∧
    mapLookup (LocalRunner.addJob (fun _ => false) runner0 jobX2).jobs
      jobX2.id = some jobX2 := by
  exact C3_amended (fun _ => false) runner0 jobX1 jobX2 jobX2 rfl rfl

/-- Claim C4 (confirmed, on the PowerShell runner whose jobs are the only
ones that declare dependencies; the Go Job record has no dependency field).
If some declared dependency of a job is not resolvable on the host, then
Invoke-DataMinerJob never spawns a child process and returns the
dependency-missing outcome: status "error" carrying the message naming the
first missing dependency — and in particular neither a "success" nor a
"failed" outcome is recorded for the attempt. -/
theorem C4_dependency_missing (resolvable : String → Bool) (launch : PSLaunch)
    (durS : Int) (job : PSJob) (d : String) (hmem : d ∈ job.dependencies)
    (hmiss : resolvable d = false) :
    (invokeDataMinerJob resolvable launch durS job).2 = false ∧
    (invokeDataMinerJob resolvable launch durS job).1.status = "error" ∧
    (invokeDataMinerJob resolvable launch durS job).1.status ≠ "success" ∧
    (invokeDataMinerJob resolvable launch durS job).1.status ≠ "failed" ∧
    ∃ d0, d0 ∈ job.dependencies ∧ resolvable d0 = false ∧
      (invokeDataMinerJob resolvable launch durS job).1.error =
        some ("Dépendance manquante: " ++ d0) := by
  have hsome : (job.dependencies.find? (fun x => ! resolvable x)).isSome := by
    rw [List.find?_isSome]
    exact ⟨d, hmem, by simp [hmiss]⟩
  obtain ⟨d0, hd0⟩ := Option.isSome_iff_exists.mp hsome
  have hmem0 : d0 ∈ job.dependencies := List.mem_of_find?_eq_some hd0
  have hp0 : resolvable d0 = false := by
    have := List.find?_some hd0
    simpa using this
  refine ⟨?_, ?_, ?_, ?_, d0, hmem0, hp0, ?_⟩ <;>
    simp [invokeDataMinerJob, hd0]

/-- Claim C4 (witness): the confirmed theorem at the concrete
ecosystem-mining job (dependencies python and pip) on a host where nothing
resolves. -/
theorem C4_witness :
    (invokeDataMinerJob (fun _ => false) (PSLaunch.exited 0) 1 psJobMining).2 =
      false ∧
    (invokeDataMinerJob (fun _ => false) (PSLaunch.exited 0) 1 psJobMining).1.status =
      "error" ∧
    (invokeDataMinerJob (fun _ => false) (PSLaunch.exited 0) 1 psJobMining).1.status ≠
      "success" ∧
    (invokeDataMinerJob (fun _ => false) (PSLaunch.exited 0) 1 psJobMining).1.status ≠
      "failed" ∧
    ∃ d0, d0 ∈ psJobMining.dependencies ∧ (fun _ => false) d0 = false ∧
      (invokeDataMinerJob (fun _ => false) (PSLaunch.exited 0) 1 psJobMining).1.error =
        some ("Dépendance manquante: " ++ d0) := by
  exact C4_dependency_missing (fun _ => false) (PSLaunch.exited 0) 1
    psJobMining "python" (by decide) rfl

/-- Claim C5 (counterexample). The claim says a second start registers no
additional cron triggers. Concretely, after one Start of a fresh runner the
cron engine holds 4 entries (one per standard job), and after a second
Start it holds 8: Start unconditionally re-runs addDataMinerJobs, and every
AddFunc call appends a fresh trigger, so each job would fire twice per
schedule slot. The jobs map, by contrast, is unchanged. -/
theorem C5_counterexample :
    (LocalRunner.Start (fun _ => true) runner0).1.cronEntries.length = 4 ∧
    (LocalRunner.Start (fun _ => true)
      (LocalRunner.Start (fun _ => true) runner0).1).1.cronEntries.length = 8 ∧
    (LocalRunner.Start (fun _ => true)
      (LocalRunner.Start (fun _ => true) runner0).1).1.jobs =
      (LocalRunner.Start (fun _ => true) runner0).1.jobs := by
  exact ⟨rfl, rfl, rfl⟩

/-- Claim C5 (amended). Start never returns an error (so a second start is
not an error), the cron engine's own Start is an idempotent flag, and a
second Start leaves the jobs map unchanged, because the same four
definitions are re-inserted under their existing ids; but Start is not a
no-op: provided the cron parser accepts the four standard schedules, every
call of Start appends one further cron trigger per standard job, so two
consecutive starts leave each job doubly registered. -/
theorem C5_amended (cronOk : String → Bool) (r : LocalRunner)
    (h1 : cronOk "0 2 * * 1" = true) (h2 : cronOk "0 8 * * *" = true)
    (h3 : cronOk "0 1 1 * *" = true) (h4 : cronOk "*/30 * * * *" = true) :
    (LocalRunner.Start cronOk r).2 = none ∧
    (LocalRunner.Start cronOk (LocalRunner.Start cronOk r).1).2 = none ∧
    (LocalRunner.Start cronOk (LocalRunner.Start cronOk r).1).1.jobs =
      (LocalRunner.Start cronOk r).1.jobs ∧
    (LocalRunner.Start cronOk r).1.cronEntries =
      r.cronEntries ++ dataMinerCronEntries ∧
    (LocalRunner.Start cronOk (LocalRunner.Start cronOk r).1).1.cronEntries =
      (LocalRunner.Start cronOk r).1.cronEntries ++ dataMinerCronEntries := by
  have hstart_jobs : ∀ s : LocalRunner, (LocalRunner.Start cronOk s).1.jobs =
      (LocalRunner.addDataMinerJobs cronOk s).jobs := fun s => rfl
  have hstart_entries : ∀ s : LocalRunner,
      (LocalRunner.Start cronOk s).1.cronEntries =
        (LocalRunner.addDataMinerJobs cronOk s).cronEntries := fun s => rfl
  have hm1 : (LocalRunner.Start cronOk r).1.jobs =
      mapInsert (mapInsert (mapInsert (mapInsert r.jobs
        ecosystemJob.id ecosystemJob) governanceJob.id governanceJob)
        cleanupJob.id cleanupJob) syncJob.id syncJob := by
    rw [hstart_jobs, addDataMinerJobs_jobs]
  have hle : mapLookup (LocalRunner.Start cronOk r).1.jobs ecosystemJob.id =
      some ecosystemJob := by
    rw [hm1,
      mapLookup_mapInsert_ne _ ecosystemJob.id syncJob.id syncJob (by decide),
      mapLookup_mapInsert_ne _ ecosystemJob.id cleanupJob.id cleanupJob (by decide),
      mapLookup_mapInsert_ne _ ecosystemJob.id governanceJob.id governanceJob (by decide)]
    exact mapLookup_mapInsert_self _ _ _
  have hlg : mapLookup (LocalRunner.Start cronOk r).1.jobs governanceJob.id =
      some governanceJob := by
    rw [hm1,
      mapLookup_mapInsert_ne _ governanceJob.id syncJob.id syncJob (by decide),
      mapLookup_mapInsert_ne _ governanceJob.id cleanupJob.id cleanupJob (by decide)]
    exact mapLookup_mapInsert_self _ _ _
  have hlc : mapLookup (LocalRunner.Start cronOk r).1.jobs cleanupJob.id =
      some cleanupJob := by
    rw [hm1,
      mapLookup_mapInsert_ne _ cleanupJob.id syncJob.id syncJob (by decide)]
    exact mapLookup_mapInsert_self _ _ _
  have hls : mapLookup (LocalRunner.Start cronOk r).1.jobs syncJob.id =
      some syncJob := by
    rw [hm1]
    exact mapLookup_mapInsert_self _ _ _
  refine ⟨rfl, rfl, ?_, ?_, ?_⟩
  · rw [hstart_jobs ((LocalRunner.Start cronOk r).1), addDataMinerJobs_jobs,
      mapInsert_eq_of_lookup _ _ _ hle, mapInsert_eq_of_lookup _ _ _ hlg,
      mapInsert_eq_of_lookup _ _ _ hlc, mapInsert_eq_of_lookup _ _ _ hls]
  · rw [hstart_entries, addDataMinerJobs_cronEntries cronOk r h1 h2 h3 h4]
  · rw [hstart_entries,
      addDataMinerJobs_cronEntries cronOk ((LocalRunner.Start cronOk r).1) h1 h2 h3 h4]

/-- Claim C5 (witness for the amended theorem): the amended statement at a
cron parser accepting everything and the fresh runner runner0. -/
theorem C5_witness :
    (LocalRunner.Start (fun _ => true) runner0).2 = none ∧
    (LocalRunner.Start (fun _ => true)
      (LocalRunner.Start (fun _ => true) runner0).1).2 = none ∧
    (LocalRunner.Start (fun _ => true)
      (LocalRunner.Start (fun _ => true) runner0).1).1.jobs =
      (LocalRunner.Start (fun _ => true) runner0).1.jobs ∧
    (LocalRunner.Start (fun _ => true) runner0).1.cronEntries =
      runner0.cronEntries ++ dataMinerCronEntries ∧
    (LocalRunner.Start (fun _ => true)
      (LocalRunner.Start (fun _ => true) runner0).1).1.cronEntries =
      (LocalRunner.Start (fun _ => true) runner0).1.cronEntries ++
        dataMinerCronEntries := by
  exact C5_amended (fun _ => true) runner0 rfl rfl rfl rfl

/-- Claim C6 (counterexample). The claim says every field of a job's
definition, including the per-job status field, is the same after a run as
before it. Concretely jobA has status "active" before the run and status
"completed" after a successful run: executeJob mutates the Status field of
the shared Job value. -/
theorem C6_counterexample :
    jobA.status = "active" ∧
    (LocalRunner.executeJob cfg0 [] jobA (ProcResult.exited 0 "") 1
      "ea" "ts" [] true).job.status = "completed" ∧
    (LocalRunner.executeJob cfg0 [] jobA (ProcResult.exited 0 "") 1
      "ea" "ts" [] true).job.status ≠ jobA.status := by
  exact ⟨rfl, rfl, by decide⟩

/-- Claim C6 (amended). No job is added to or removed from the catalog at
runtime (executeJob never touches the jobs map), and every field of the job
except Status is unchanged by a run; the Status field however is mutated on
every run, to "completed" on success and to "failed" on any error. -/
theorem C6_amended (cfg : GoRunnerConfig) (hostEnv : List String) (job : Job)
    (pr : ProcResult) (durationMs : Int) (executedAt timestamp : String)
    (fs : List (String × JobResult)) (writeOk : Bool) :
    (LocalRunner.executeJob cfg hostEnv job pr durationMs executedAt
      timestamp fs writeOk).job.id = job.id ∧
    (LocalRunner.executeJob cfg hostEnv job pr durationMs executedAt
      timestamp fs writeOk).job.name = job.name ∧
    (LocalRunner.executeJob cfg hostEnv job pr durationMs executedAt
      timestamp fs writeOk).job.command = job.command ∧
    (LocalRunner.executeJob cfg hostEnv job pr durationMs executedAt
      timestamp fs writeOk).job.args = job.args ∧
    (LocalRunner.executeJob cfg hostEnv job pr durationMs executedAt
      timestamp fs writeOk).job.schedule = job.schedule ∧
    (LocalRunner.executeJob cfg hostEnv job pr durationMs executedAt
      timestamp fs writeOk).job.timeout = job.timeout ∧
    (LocalRunner.executeJob cfg hostEnv job pr durationMs executedAt
      timestamp fs writeOk).job.createdAt = job.createdAt ∧
    ((LocalRunner.executeJob cfg hostEnv job pr durationMs executedAt
      timestamp fs writeOk).job.status = "completed" ∨
      (LocalRunner.executeJob cfg hostEnv job pr durationMs executedAt
        timestamp fs writeOk).job.status = "failed") := by
  refine ⟨rfl, rfl, rfl, rfl, rfl, rfl, rfl, ?_⟩
  cases pr with
  | exited code output =>
      by_cases hc : code = 0
      · left
        simp [LocalRunner.executeJob, combinedOutput, hc]
      · right
        simp [LocalRunner.executeJob, combinedOutput, hc]
  | timedOut output => exact Or.inr rfl
  | launchFailed reason => exact Or.inr rfl

/-- Claim C7 (counterexample). The claim says two runs of the same job
completing within the same clock second persist two distinct records. The
result-file name has only second granularity, so both attempts target the
same path and os.WriteFile overwrites: after two saves with the same
timestamp the directory holds exactly one record — the later one — and the
earlier record is gone. -/
theorem C7_counterexample :
    (LocalRunner.saveJobResult cfg0 jobA "out1" 5 none "ea1"
      "20250106_120000" [] true).file =
      (LocalRunner.saveJobResult cfg0 jobA "out2" 7 none "ea2"
        "20250106_120000"
        (LocalRunner.saveJobResult cfg0 jobA "out1" 5 none "ea1"
          "20250106_120000" [] true).fs true).file ∧
    (LocalRunner.saveJobResult cfg0 jobA "out2" 7 none "ea2"
      "20250106_120000"
      (LocalRunner.saveJobResult cfg0 jobA "out1" 5 none "ea1"
        "20250106_120000" [] true).fs true).fs =
      [((LocalRunner.saveJobResult cfg0 jobA "out2" 7 none "ea2"
          "20250106_120000" [] true).file,
        (LocalRunner.saveJobResult cfg0 jobA "out2" 7 none "ea2"
          "20250106_120000" [] true).record)] ∧
    (LocalRunner.saveJobResult cfg0 jobA "out1" 5 none "ea1"
      "20250106_120000" [] true).record ≠
      (LocalRunner.saveJobResult cfg0 jobA "out2" 7 none "ea2"
        "20250106_120000" [] true).record := by
  refine ⟨rfl, by decide, by decide⟩

/-- Claim C7 (amended). Each run attempt performs exactly one write, to a
path determined by the job id and a second-granularity timestamp. Attempts
of the same job completing in different seconds get distinct paths and both
records persist unmodified; but two attempts of the same job completing
within the same second share one path, and the later write overwrites the
earlier, leaving the directory as if the first record had never been
written. -/
theorem C7_amended (cfg : GoRunnerConfig) (job : Job)
    (out1 out2 ea1 ea2 ts1 ts2 : String) (d1 d2 : Int) (e1 e2 : Option String)
    (fs : List (String × JobResult)) (hts : ts1 ≠ ts2) :
    (LocalRunner.saveJobResult cfg job out1 d1 e1 ea1 ts1 fs true).file ≠
      (LocalRunner.saveJobResult cfg job out2 d2 e2 ea2 ts2
        (LocalRunner.saveJobResult cfg job out1 d1 e1 ea1 ts1 fs true).fs
        true).file ∧
    mapLookup (LocalRunner.saveJobResult cfg job out2 d2 e2 ea2 ts2
        (LocalRunner.saveJobResult cfg job out1 d1 e1 ea1 ts1 fs true).fs
        true).fs
      (LocalRunner.saveJobResult cfg job out1 d1 e1 ea1 ts1 fs true).file =
      some (LocalRunner.saveJobResult cfg job out1 d1 e1 ea1 ts1 fs
        true).record ∧
    mapLookup (LocalRunner.saveJobResult cfg job out2 d2 e2 ea2 ts2
        (LocalRunner.saveJobResult cfg job out1 d1 e1 ea1 ts1 fs true).fs
        true).fs
      (LocalRunner.saveJobResult cfg job out2 d2 e2 ea2 ts2 fs true).file =
      some (LocalRunner.saveJobResult cfg job out2 d2 e2 ea2 ts2 fs
        true).record ∧
    (LocalRunner.saveJobResult cfg job out2 d2 e2 ea2 ts1
      (LocalRunner.saveJobResult cfg job out1 d1 e1 ea1 ts1 fs true).fs
      true).file =
      (LocalRunner.saveJobResult cfg job out1 d1 e1 ea1 ts1 fs true).file ∧
    (LocalRunner.saveJobResult cfg job out2 d2 e2 ea2 ts1
      (LocalRunner.saveJobResult cfg job out1 d1 e1 ea1 ts1 fs true).fs
      true).fs =
      mapInsert fs (LocalRunner.saveJobResult cfg job out1 d1 e1 ea1 ts1 fs
        true).file
        (LocalRunner.saveJobResult cfg job out2 d2 e2 ea2 ts1 fs
          true).record := by
  have hne2 : resultFileName cfg.logPath job.id ts2 ≠
      resultFileName cfg.logPath job.id ts1 :=
    fun h => hts (resultFileName_inj cfg.logPath job.id h).symm
  refine ⟨fun h => hts (resultFileName_inj cfg.logPath job.id h), ?_, ?_, rfl, ?_⟩
  · simp only [LocalRunner.saveJobResult, if_pos]
    rw [mapLookup_mapInsert_ne _ _ _ _ hne2]
    exact mapLookup_mapInsert_self _ _ _
  · simp only [LocalRunner.saveJobResult, if_pos]
    exact mapLookup_mapInsert_self _ _ _
  · simp only [LocalRunner.saveJobResult, if_pos]
    exact mapInsert_mapInsert_same _ _ _ _

/-- Claim C7 (witness for the amended theorem): the amended statement at
the concrete job jobA and the timestamps 20250106_120000 and
20250106_120001, one second apart. -/
theorem C7_witness :
    (LocalRunner.saveJobResult cfg0 jobA "out1" 5 none "ea1"
      "20250106_120000" [] true).file ≠
      (LocalRunner.saveJobResult cfg0 jobA "out2" 7 none "ea2"
        "20250106_120001"
        (LocalRunner.saveJobResult cfg0 jobA "out1" 5 none "ea1"
          "20250106_120000" [] true).fs true).file ∧
    mapLookup (LocalRunner.saveJobResult cfg0 jobA "out2" 7 none "ea2"
        "20250106_120001"
        (LocalRunner.saveJobResult cfg0 jobA "out1" 5 none "ea1"
          "20250106_120000" [] true).fs true).fs
      (LocalRunner.saveJobResult cfg0 jobA "out1" 5 none "ea1"
        "20250106_120000" [] true).file =
      some (LocalRunner.saveJobResult cfg0 jobA "out1" 5 none "ea1"
        "20250106_120000" [] true).record ∧
    mapLookup (LocalRunner.saveJobResult cfg0 jobA "out2" 7 none "ea2"
        "20250106_120001"
        (LocalRunner.saveJobResult cfg0 jobA "out1" 5 none "ea1"
          "20250106_120000" [] true).fs true).fs
      (LocalRunner.saveJobResult cfg0 jobA "out2" 7 none "ea2"
        "20250106_120001" [] true).file =
      some (LocalRunner.saveJobResult cfg0 jobA "out2" 7 none "ea2"
        "20250106_120001" [] true).record ∧
    (LocalRunner.saveJobResult cfg0 jobA "out2" 7 none "ea2"
      "20250106_120000"
      (LocalRunner.saveJobResult cfg0 jobA "out1" 5 none "ea1"
        "20250106_120000" [] true).fs true).file =
      (LocalRunner.saveJobResult cfg0 jobA "out1" 5 none "ea1"
        "20250106_120000" [] true).file ∧
    (LocalRunner.saveJobResult cfg0 jobA "out2" 7 none "ea2"
      "20250106_120000"
      (LocalRunner.saveJobResult cfg0 jobA "out1" 5 none "ea1"
        "20250106_120000" [] true).fs true).fs =
      mapInsert [] (LocalRunner.saveJobResult cfg0 jobA "out1" 5 none "ea1"
        "20250106_120000" [] true).file
        (LocalRunner.saveJobResult cfg0 jobA "out2" 7 none "ea2"
          "20250106_120000" [] true).record := by
  exact C7_amended cfg0 jobA "out1" "out2" "ea1" "ea2" "20250106_120000"
    "20250106_120001" 5 7 none none [] (by decide)

/-- Claim C8 (counterexample). The claim says a failed record write is
logged to standard error and never silently discarded. Concretely, when
os.WriteFile fails, saveJobResult leaves the directory without the record,
writes nothing to standard error, and reports nothing to its caller: the
failure is silently discarded. -/
theorem C8_counterexample :
    (LocalRunner.saveJobResult cfg0 jobA "out" 5 none "ea"
      "20250106_120000" [] false).fs = [] ∧
    (LocalRunner.saveJobResult cfg0 jobA "out" 5 none "ea"
      "20250106_120000" [] false).stderrLogs = [] ∧
    (LocalRunner.saveJobResult cfg0 jobA "out" 5 none "ea"
      "20250106_120000" [] false).schedulerErr = none := by
  exact ⟨rfl, rfl, rfl⟩

/-- Claim C8 (amended). A failed record write indeed never propagates as an
error to the Scheduler — but not because it is handled: saveJobResult
discards the os.WriteFile result (and the marshal error), emits nothing to
any fallback channel, and simply loses the record, so the failure is
silently discarded. -/
theorem C8_amended (cfg : GoRunnerConfig) (job : Job) (output : String)
    (durationMs : Int) (err : Option String) (executedAt timestamp : String)
    (fs : List (String × JobResult)) :
    (∀ w : Bool,
      (LocalRunner.saveJobResult cfg job output durationMs err executedAt
        timestamp fs w).stderrLogs = [] ∧
      (LocalRunner.saveJobResult cfg job output durationMs err executedAt
        timestamp fs w).schedulerErr = none) ∧
    (LocalRunner.saveJobResult cfg job output durationMs err executedAt
      timestamp fs false).fs = fs := by
  exact ⟨fun w => ⟨rfl, rfl⟩, rfl⟩

/-- Claim C9 (counterexample). The claim says the injected variables are
the runner-identifying ones (runner id and workspace path) and nothing
beyond. Concretely the child environment also receives GITHUB_TOKEN from
the runner configuration — a variable that is neither of the two
runner-identifying ones and was not in the host environment. -/
theorem C9_counterexample :
    ("GITHUB_TOKEN=" ++ cfg0.gitHubToken) ∈
      (LocalRunner.executeJob cfg0 [] jobA (ProcResult.exited 0 "") 1
        "ea" "ts" [] true).env ∧
    ("GITHUB_TOKEN=" ++ cfg0.gitHubToken) ∉ ([] : List String) ∧
    ("GITHUB_TOKEN=" ++ cfg0.gitHubToken) ≠
      "DATA_MINER_RUNNER_ID=" ++ cfg0.runnerID ∧
    ("GITHUB_TOKEN=" ++ cfg0.gitHubToken) ≠
      "DATA_MINER_WORKSPACE=" ++ cfg0.workspacePath := by
  decide

/-- Claim C9 (amended). The child environment is the host environment with
exactly three variables appended, in order: GITHUB_TOKEN from the
configuration, then DATA_MINER_RUNNER_ID and DATA_MINER_WORKSPACE. The
augmentation is purely additive at the list level (no inherited entry is
removed), though an appended variable can shadow an inherited one of the
same name. -/
theorem C9_amended (cfg : GoRunnerConfig) (hostEnv : List String) (job : Job)
    (pr : ProcResult) (durationMs : Int) (executedAt timestamp : String)
    (fs : List (String × JobResult)) (writeOk : Bool) :
    (LocalRunner.executeJob cfg hostEnv job pr durationMs executedAt
      timestamp fs writeOk).env =
      hostEnv ++
        ["GITHUB_TOKEN=" ++ cfg.gitHubToken,
         "DATA_MINER_RUNNER_ID=" ++ cfg.runnerID,
         "DATA_MINER_WORKSPACE=" ++ cfg.workspacePath] := by
  exact rfl

/-- Claim C10 (confirmed). For every spawned job — whatever the job
definition, the process behaviour, and the host environment — the child
environment contains GITHUB_TOKEN set to the token of the runner
configuration, so the configured secret is exposed to every job's
process. -/
theorem C10_github_token_always_injected (cfg : GoRunnerConfig)
    (hostEnv : List String) (job : Job) (pr : ProcResult) (durationMs : Int)
    (executedAt timestamp : String) (fs : List (String × JobResult))
    (writeOk : Bool) :
    ("GITHUB_TOKEN=" ++ cfg.gitHubToken) ∈
      (LocalRunner.executeJob cfg hostEnv job pr durationMs executedAt
        timestamp fs writeOk).env := by
  simp [LocalRunner.executeJob, childEnv]
